import Mathlib

/-!
Verification of `pyfilesystem_dokan` (a user-mode Dokan filesystem adapter).

This file gives a shallow embedding, in Lean 4, of the parts of the source
relevant to the frozen claims:

* `src/dokan/__init__.py` — the operation dispatcher (`FSOperations`), its
  handle registry, byte-range lock table, pending-delete set, post-close
  written-size table, the errno → NT-status translation and the
  FILETIME/datetime conversion helpers;
* `src/fs_legacy.py` — `convert_fs_errors` (FS error → OSError/errno) and
  `PathMap` (the path-keyed trie used by the three cross-call tables).

Python dictionaries are embedded as insertion-ordered association lists,
Python `set`s as lists without duplicates, machine integers as `Nat`/`Int`
(Python integers are unbounded, so no wrap-around modelling is needed except
in the FILETIME split, where the source itself masks with `& 0xffffffff`),
and raised exceptions as `Except`/`Option` results.
-/

namespace PyfsDokan

/-! ### NT status codes and create-action codes (src/dokan/__init__.py:195-243) -/

def STATUS_SUCCESS : Nat := 0x0
def STATUS_ACCESS_DENIED : Nat := 0xC0000022
def STATUS_LOCK_NOT_GRANTED : Nat := 0xC0000055
def STATUS_NOT_SUPPORTED : Nat := 0xC00000BB
def STATUS_OBJECT_NAME_COLLISION : Nat := 0xC0000035
def STATUS_DIRECTORY_NOT_EMPTY : Nat := 0xC0000101
def STATUS_NOT_LOCKED : Nat := 0xC000002A
def STATUS_OBJECT_NAME_NOT_FOUND : Nat := 0xC0000034
def STATUS_NOT_IMPLEMENTED : Nat := 0xC0000002
def STATUS_BUFFER_OVERFLOW : Nat := 0x80000005

def ERROR_ALREADY_EXISTS : Nat := 183

/-- NT create-disposition values. -/
def FILE_SUPERSEDE : Nat := 0
def FILE_OPEN : Nat := 1
def FILE_CREATE : Nat := 2
def FILE_OPEN_IF : Nat := 3
def FILE_OVERWRITE : Nat := 4
def FILE_OVERWRITE_IF : Nat := 5

/-- NT create-action return values. -/
def FILE_SUPERSEDED : Nat := 0
def FILE_OPENED : Nat := 1
def FILE_CREATED : Nat := 2
def FILE_OVERWRITTEN : Nat := 3
def FILE_EXISTS : Nat := 4
def FILE_DOES_NOT_EXIST : Nat := 5

def FILE_DELETE_ON_CLOSE : Nat := 0x1000

def FILE_READ_DATA : Nat := 0x1
def FILE_WRITE_DATA : Nat := 0x2
def FILE_APPEND_DATA : Nat := 0x4
def FILE_EXECUTE : Nat := 0x20

def MinimumFileHandler : Nat := 100

/-! ### errno values

The module runs on win32 (it binds the Dokan driver), so the numeric values
are CPython-on-Windows ones; `_errno2syserrcode` only compares them
symbolically against the same constants, so the claims do not depend on the
particular numbers, except that the four specially-mapped errnos are
pairwise distinct. -/

def ENOENT : Nat := 2
def ESRCH : Nat := 3
def EACCES : Nat := 13
def EFAULT : Nat := 14
def EEXIST : Nat := 17
def EINVAL : Nat := 22
def ENOSPC : Nat := 28
def ENOSYS : Nat := 40
def ENOTEMPTY : Nat := 41
def ENETDOWN : Nat := 116

/-- `_errno2syserrcode` (src/dokan/__init__.py:972-982): convert an errno
into a win32 system error code.  Total on all errno values; unlisted errnos
pass through unchanged. -/
def errno2syserrcode (eno : Nat) : Nat :=
  if eno = EEXIST then STATUS_OBJECT_NAME_COLLISION
  else if eno = ENOTEMPTY then STATUS_DIRECTORY_NOT_EMPTY
  else if eno = ENOSYS then STATUS_NOT_SUPPORTED
  else if eno = EACCES then STATUS_ACCESS_DENIED
  else eno

/-! ### FS error kinds and `convert_fs_errors` (src/fs_legacy.py:9-43) -/

/-- The `fs.errors` exception kinds distinguished by `convert_fs_errors`.
`otherFSError` is a plain `FSError` not matching any earlier `except`
clause — in particular the `FSError("invalid file handle")` raised by
`FSOperations._get_file`. -/
inductive FSErr where
  | resourceNotFound
  | resourceInvalid
  | permissionDenied
  | resourceLocked
  | directoryNotEmpty
  | destinationExists
  | insufficientStorage
  | remoteConnectionError
  | unsupported
  | otherFSError
  deriving DecidableEq, Repr

/-- `convert_fs_errors` (src/fs_legacy.py:9-43): the errno carried by the
`OSError` raised for each FS error kind.  The second `except
ResourceNotFound` clause of the source is dead code (the first matching
clause wins in Python), so `resourceNotFound` always yields `ENOENT`.
On win32, `ResourceLocked` raises `WindowsError(32, ...)`, an `OSError`
whose errno is 32. -/
def convert_fs_errors_errno (win32 : Bool) : FSErr → Nat
  | .resourceNotFound => ENOENT
  | .resourceInvalid => EINVAL
  | .permissionDenied => EACCES
  | .resourceLocked => if win32 then 32 else EACCES
  | .directoryNotEmpty => ENOTEMPTY
  | .destinationExists => EEXIST
  | .insufficientStorage => ENOSPC
  | .remoteConnectionError => ENETDOWN
  | .unsupported => ENOSYS
  | .otherFSError => EFAULT

/-- Exceptions that can escape a dispatcher callback body.  `keyError`
stands for the `KeyError` a `set.remove`/`dict` access can raise; it is not
an `FSError` nor an `OSError`, so `handle_fs_errors` re-raises it. -/
inductive PyExc where
  | fsError (e : FSErr)
  | keyError
  deriving DecidableEq, Repr

/-- `handle_fs_errors` (src/dokan/__init__.py:332-357) composed with
`convert_fs_errors`: the NT status delivered to the driver for a callback
body that returned `Option Nat` (`none` = Python `None`, normalized to 0)
or raised.  A raised `FSError` was converted to `OSError(errno, msg)`; the
wrapper maps a nonzero errno through `_errno2syserrcode` and uses
`STATUS_ACCESS_DENIED` only when the errno is zero/absent.  Result `none`
means the exception propagated out of the wrapper (non-FS, non-OS error). -/
def handle_fs_errors_status (win32 : Bool) : Except PyExc (Option Nat) → Option Nat
  | .ok none => some 0
  | .ok (some s) => some s
  | .error (.fsError e) =>
      let eno := convert_fs_errors_errno win32 e
      if eno ≠ 0 then some (errno2syserrcode eno) else some STATUS_ACCESS_DENIED
  | .error .keyError => none

/-! ### Association-list helpers (embedding of Python `dict`)

Python dicts preserve insertion order and have unique keys; we embed them
as association lists where `aset` updates in place or appends, and
`aerase` removes the (unique) binding. -/

def alookup {α β : Type} [DecidableEq α] (k : α) : List (α × β) → Option β
  | [] => none
  | (k2, v) :: rest => if k2 = k then some v else alookup k rest

def aset {α β : Type} [DecidableEq α] (k : α) (v : β) : List (α × β) → List (α × β)
  | [] => [(k, v)]
  | (k2, v2) :: rest => if k2 = k then (k2, v) :: rest else (k2, v2) :: aset k v rest

def aerase {α β : Type} [DecidableEq α] (k : α) : List (α × β) → List (α × β)
  | [] => []
  | (k2, v2) :: rest => if k2 = k then rest else (k2, v2) :: aerase k rest

/-! ### Streams (the file objects returned by the pyfilesystem backend)

A VFS stream carries its byte content, a cursor, a `closed` flag and the
`mode` string it was opened with (kept by the source so the file can be
transparently reopened after Cleanup). -/

structure Stream where
  data : List Nat
  pos : Nat
  closed : Bool
  mode : String
  deriving DecidableEq, Repr

def Stream.tell (s : Stream) : Nat := s.pos

def Stream.seek (s : Stream) (o : Nat) : Stream := { s with pos := o }

/-- `file.seek(0, os.SEEK_END)`. -/
def Stream.seekEnd (s : Stream) : Stream := { s with pos := s.data.length }

/-- `file.truncate()` with no argument: truncate at the current position;
a position beyond end-of-file zero-extends (POSIX `ftruncate`). -/
def Stream.truncate (s : Stream) : Stream :=
  { s with data := s.data.take s.pos ++ List.replicate (s.pos - s.data.length) 0 }

/-- `file.read(n)`: bytes from the cursor, advancing it. -/
def Stream.read (s : Stream) (n : Nat) : List Nat × Stream :=
  let chunk := (s.data.drop s.pos).take n
  (chunk, { s with pos := s.pos + chunk.length })

/-- Content with the prefix before `n` kept, the rest dropped, zero-padded
up to length `n` — the effect "truncated at offset n" on the byte content. -/
def resizeTo (n : Nat) (l : List Nat) : List Nat :=
  l.take n ++ List.replicate (n - l.length) 0

/-! ### Dispatcher state (the `FSOperations` instance fields, src/dokan/__init__.py:360-386) -/

/-- VFS paths, normalized, as component lists (`/a/b` = `["a","b"]`,
the root `/` = `[]`). -/
abbrev VPath := List String

/-- One entry of `_files_by_handle`: the `(File, FileName, lock)` tuple
minus the per-handle mutex (concurrency is out of the embedding). -/
structure OpenFile where
  file : Stream
  path : VPath
  deriving DecidableEq, Repr

/-- The mutable state of an `FSOperations` instance. -/
structure FSState where
  files_by_handle : List (Nat × OpenFile)
  next_handle : Nat
  pending_delete : List VPath
  active_locks : List (VPath × List (Nat × Nat × Nat))
  files_size_written : List (VPath × List (Nat × Nat))
  deriving DecidableEq, Repr

/-- The state built by `FSOperations.__init__`. -/
def initialFSState : FSState :=
  { files_by_handle := []
    next_handle := MinimumFileHandler
    pending_delete := []
    active_locks := []
    files_size_written := [] }

/-- `FSOperations._get_file` (src/dokan/__init__.py:394-399): look up a
handle; a missing handle raises `FSError("invalid file handle")` — the
plain base class, so `convert_fs_errors` maps it through its final
`except FSError` clause. -/
def get_file (st : FSState) (handle : Nat) : Except FSErr OpenFile :=
  match alookup handle st.files_by_handle with
  | some f => .ok f
  | none => .error .otherFSError

/-- `FSOperations._reg_file` (src/dokan/__init__.py:401-414): allocate the
next handle, store the file, initialize the post-close written size to 0. -/
def reg_file (st : FSState) (f : Stream) (path : VPath) : Nat × FSState :=
  let handle := st.next_handle
  let sizes := (alookup path st.files_size_written).getD []
  (handle,
    { st with
      next_handle := handle + 1
      files_by_handle := aset handle ⟨f, path⟩ st.files_by_handle
      files_size_written := aset path (aset handle 0 sizes) st.files_size_written })

/-- `FSOperations._rereg_file` (src/dokan/__init__.py:416-429): replace the
stream stored for a handle (used to reopen after Cleanup). -/
def rereg_file (st : FSState) (handle : Nat) (f : Stream) : FSState :=
  match alookup handle st.files_by_handle with
  | none => st
  | some of => { st with files_by_handle := aset handle { of with file := f } st.files_by_handle }

/-- `FSOperations._del_file` (src/dokan/__init__.py:431-441): unregister a
handle and drop its post-close size entry, removing the per-path dict when
it becomes empty.  (When the handle is absent the source raises `KeyError`
before mutating anything, so the state is returned unchanged.) -/
def del_file (st : FSState) (handle : Nat) : FSState :=
  match alookup handle st.files_by_handle with
  | none => st
  | some of =>
    let st1 := { st with files_by_handle := aerase handle st.files_by_handle }
    match alookup of.path st1.files_size_written with
    | none => st1
    | some sizes =>
      let sizes2 := aerase handle sizes
      if sizes2.isEmpty then
        { st1 with files_size_written := aerase of.path st1.files_size_written }
      else
        { st1 with files_size_written := aset of.path sizes2 st1.files_size_written }

/-! ### Pending-delete checks (src/dokan/__init__.py:443-452) -/

/-- `fs.path.recursepath`: the path itself and all its ancestors, root
included — as component lists, all the prefixes. -/
def recursepath (p : VPath) : List VPath :=
  (List.range (p.length + 1)).map (fun n => p.take n)

/-- `FSOperations._is_pending_delete`: true iff the path or any ancestor is
in the pending-delete set. -/
def is_pending_delete (pending : List VPath) (p : VPath) : Bool :=
  (recursepath p).any (fun q => decide (q ∈ pending))

/-- `set.add`: insert if absent (insertion order kept for list embedding). -/
def paddPending (p : VPath) (pending : List VPath) : List VPath :=
  if p ∈ pending then pending else pending ++ [p]

/-! ### Byte-range locks (src/dokan/__init__.py:454-476, 832-846) -/

/-- The loop body of `FSOperations._check_lock` over an explicit lock list.
`context` is `DokanFileInfo.contents.Context` when a `DokanFileInfo` is
supplied, `none` when the caller passed `None` (as `LockFile` does): then
no lock is skipped.  A held lock `(lh, lstart, lend)` is skipped when it is
owned by `context` or its range misses `[offset, offset+length)`. -/
def check_lock_list (context : Option Nat) (offset length : Nat) :
    List (Nat × Nat × Nat) → Nat
  | [] => STATUS_SUCCESS
  | (lh, lstart, lend) :: rest =>
    if context = some lh then check_lock_list context offset length rest
    else if offset + length ≤ lstart then check_lock_list context offset length rest
    else if lend ≤ offset then check_lock_list context offset length rest
    else STATUS_LOCK_NOT_GRANTED

/-- `FSOperations._check_lock` with `locks=None`: fetch the path's lock
list from the table (no entry means no locks, status 0). -/
def check_lock (st : FSState) (path : VPath) (context : Option Nat)
    (offset length : Nat) : Nat :=
  match alookup path st.active_locks with
  | none => STATUS_SUCCESS
  | some locks => check_lock_list context offset length locks

/-- The lock list the table holds for a path (empty when absent). -/
def getLocks (st : FSState) (path : VPath) : List (Nat × Nat × Nat) :=
  (alookup path st.active_locks).getD []

/-- `FSOperations.LockFile` (src/dokan/__init__.py:832-846).  If the path
has no entry, a fresh empty list is created and the lock appended without
any check; otherwise `_check_lock` runs with `DokanFileInfo = None` — so
locks held by the requesting handle are *not* excluded — and on conflict
the nonzero status is returned with the table unchanged. -/
def LockFile (st : FSState) (path : VPath) (byteOffset length : Nat)
    (context : Nat) : Nat × FSState :=
  let endPos := byteOffset + length
  match alookup path st.active_locks with
  | none =>
    (STATUS_SUCCESS,
      { st with active_locks := aset path [(context, byteOffset, endPos)] st.active_locks })
  | some locks =>
    let status := check_lock_list none byteOffset length locks
    if status ≠ STATUS_SUCCESS then (status, st)
    else
      (STATUS_SUCCESS,
        { st with active_locks := aset path (locks ++ [(context, byteOffset, endPos)]) st.active_locks })

/-! ### The VFS backend, as a pure oracle

The claims under verification never depend on how the backend mutates its
own store, only on what it answers and whether its calls raise, so the
backend is a record of response functions.  Mutating calls the dispatcher
performs are additionally recorded in an action trace. -/

structure VFS where
  isdir : VPath → Bool
  existsp : VPath → Bool
  isfile : VPath → Bool
  makedirResult : VPath → Except FSErr Bool
  openResult : VPath → String → Except FSErr Stream
  removeResult : VPath → Except FSErr Unit
  removedirResult : VPath → Except FSErr Unit
  moveResult : VPath → VPath → Except FSErr Unit
  movedirResult : VPath → VPath → Except FSErr Unit

/-- VFS calls performed during a callback, in order. -/
inductive VFSAction where
  | isdirQ (p : VPath)
  | existsQ (p : VPath)
  | openA (p : VPath) (mode : String)
  | makedirA (p : VPath)
  | removeA (p : VPath)
  | removedirA (p : VPath)
  | moveA (src dst : VPath)
  | movedirA (src dst : VPath)
  deriving DecidableEq, Repr

/-! ### ZwCreateFile (src/dokan/__init__.py:478-552) -/

/-- Outcome of the `ZwCreateFile` body (before the `handle_fs_errors`
wrapper): the raw return value or propagated exception, the dispatcher
state, the value written to `DokanFileInfo.Context` (if any), the final
`IsDirectory` field, and the VFS calls made. -/
structure CreateOut where
  result : Except PyExc Nat
  st : FSState
  contextWrite : Option Nat
  isDirOut : Bool
  actions : List VFSAction
  deriving Repr

/-- The access bits whose joint absence makes the source treat the target
as a directory open: `FILE_READ_DATA | FILE_WRITE_DATA | FILE_APPEND_DATA
| FILE_EXECUTE`. -/
def dataAccessMask : Nat :=
  FILE_READ_DATA ||| FILE_WRITE_DATA ||| FILE_APPEND_DATA ||| FILE_EXECUTE

/-- `FSOperations.ZwCreateFile` with the path already normalized.
Mirrors the source exactly:
1. pending-delete paths are refused with `STATUS_ACCESS_DENIED` before any
   VFS call;
2. with no data-access bit and disposition OPEN or CREATE, `IsDirectory`
   is cleared (set to 0 — as the source does);
3. directory branch (`fs.isdir` or `IsDirectory`): OPEN/CREATE/OPEN_IF
   handled, other dispositions fall through to `return retcode`; the
   branch never registers a handle and never touches the pending set;
4. file branch: disposition chooses the mode and return code, existence
   pre-checks return early, `fs.open` failures propagate; on success the
   handle is registered and written to the context, and the path is added
   to the pending-delete set only when `retcode == STATUS_SUCCESS` and
   `CreateOptions` contains `FILE_DELETE_ON_CLOSE`. -/
def ZwCreateFile (vfs : VFS) (st : FSState) (path : VPath)
    (desiredAccess createDisposition createOptions : Nat)
    (isDirIn : Bool) : CreateOut :=
  if is_pending_delete st.pending_delete path then
    { result := .ok STATUS_ACCESS_DENIED, st := st, contextWrite := none
      isDirOut := isDirIn, actions := [] }
  else
    let isDir1 :=
      if desiredAccess &&& dataAccessMask = 0 ∧
          (createDisposition = FILE_OPEN ∨ createDisposition = FILE_CREATE) then
        false
      else isDirIn
    if vfs.isdir path || isDir1 then
      let acts := [VFSAction.isdirQ path]
      if createDisposition = FILE_OPEN then
        if vfs.existsp path then
          { result := .ok STATUS_SUCCESS, st := st, contextWrite := none
            isDirOut := true, actions := acts ++ [.existsQ path] }
        else
          { result := .ok FILE_DOES_NOT_EXIST, st := st, contextWrite := none
            isDirOut := true, actions := acts ++ [.existsQ path] }
      else if createDisposition = FILE_CREATE then
        match vfs.makedirResult path with
        | .error e =>
          { result := .error (.fsError e), st := st, contextWrite := none
            isDirOut := true, actions := acts ++ [.makedirA path] }
        | .ok ok =>
          { result := .ok (if ok then STATUS_SUCCESS else FILE_DOES_NOT_EXIST)
            st := st, contextWrite := none
            isDirOut := true, actions := acts ++ [.makedirA path] }
      else if createDisposition = FILE_OPEN_IF then
        if vfs.existsp path then
          { result := .ok STATUS_SUCCESS, st := st, contextWrite := none
            isDirOut := true, actions := acts ++ [.existsQ path] }
        else
          match vfs.makedirResult path with
          | .error e =>
            { result := .error (.fsError e), st := st, contextWrite := none
              isDirOut := true, actions := acts ++ [.existsQ path, .makedirA path] }
          | .ok ok =>
            { result := .ok (if ok then STATUS_SUCCESS else FILE_DOES_NOT_EXIST)
              st := st, contextWrite := none
              isDirOut := true, actions := acts ++ [.existsQ path, .makedirA path] }
      else
        { result := .ok STATUS_SUCCESS, st := st, contextWrite := none
          isDirOut := true, actions := acts }
    else
      let acts := [VFSAction.isdirQ path]
      if desiredAccess = 0 then
        { result := .ok FILE_DOES_NOT_EXIST, st := st, contextWrite := none
          isDirOut := isDir1, actions := acts }
      else
        let modeRetEx : String × Nat × Option Nat :=
          if createDisposition = FILE_OPEN then
            ("r+b", STATUS_SUCCESS,
              if vfs.existsp path then none else some FILE_DOES_NOT_EXIST)
          else if createDisposition = FILE_CREATE then
            ("w+b", STATUS_SUCCESS,
              if vfs.existsp path then some ERROR_ALREADY_EXISTS else none)
          else if createDisposition = FILE_OVERWRITE then
            ("w+b", STATUS_SUCCESS,
              if vfs.existsp path then none else some FILE_DOES_NOT_EXIST)
          else if createDisposition = FILE_OVERWRITE_IF then
            ("w+b", FILE_OVERWRITTEN, none)
          else if createDisposition = FILE_SUPERSEDE then
            ("w+b", FILE_SUPERSEDED, none)
          else if createDisposition = FILE_OPEN_IF then
            ("w+b", STATUS_SUCCESS, none)
          else
            ("r+b", STATUS_SUCCESS, none)
        let mode := modeRetEx.1
        let retcode := modeRetEx.2.1
        let checkQ :=
          if createDisposition = FILE_OPEN ∨ createDisposition = FILE_CREATE ∨
              createDisposition = FILE_OVERWRITE then
            acts ++ [VFSAction.existsQ path]
          else acts
        match modeRetEx.2.2 with
        | some early =>
          { result := .ok early, st := st, contextWrite := none
            isDirOut := isDir1, actions := checkQ }
        | none =>
          match vfs.openResult path mode with
          | .error e =>
            { result := .error (.fsError e), st := st, contextWrite := none
              isDirOut := isDir1, actions := checkQ ++ [.openA path mode] }
          | .ok f =>
            let regOut := reg_file st f path
            let st2 := regOut.2
            let st3 :=
              if retcode = STATUS_SUCCESS ∧ createOptions &&& FILE_DELETE_ON_CLOSE ≠ 0 then
                { st2 with pending_delete := paddPending path st2.pending_delete }
              else st2
            { result := .ok retcode, st := st3, contextWrite := some regOut.1
              isDirOut := isDir1, actions := checkQ ++ [.openA path mode] }

/-! ### Cleanup / CloseFile (src/dokan/__init__.py:554-586) -/

/-- Outcome of a callback body returning `None`/a status, with the value
(if any) written to `DokanFileInfo.Context`. -/
structure CbOut where
  result : Except PyExc (Option Nat)
  st : FSState
  contextWrite : Option Nat
  deriving Repr

/-- `FSOperations.Cleanup`.  Directory + `DeleteOnClose`: `removedir` then
`self._pending_delete.remove` (a `set.remove`, raising `KeyError` when the
path was never marked).  File: close the stream; with `DeleteOnClose` also
`fs.remove`, clear pending-delete, unregister, zero the context. -/
def Cleanup (vfs : VFS) (st : FSState) (path : VPath) (context : Nat)
    (isDirectory deleteOnClose : Bool) : CbOut :=
  if isDirectory then
    if deleteOnClose then
      match vfs.removedirResult path with
      | .error e => { result := .error (.fsError e), st := st, contextWrite := none }
      | .ok _ =>
        if path ∈ st.pending_delete then
          { result := .ok none
            st := { st with pending_delete := st.pending_delete.erase path }
            contextWrite := none }
        else
          { result := .error .keyError, st := st, contextWrite := none }
    else
      { result := .ok none, st := st, contextWrite := none }
  else
    match get_file st context with
    | .error e => { result := .error (.fsError e), st := st, contextWrite := none }
    | .ok of =>
      let closedFile := { of.file with closed := true }
      let st1 := { st with
        files_by_handle := aset context { of with file := closedFile } st.files_by_handle }
      if deleteOnClose then
        match vfs.removeResult path with
        | .error e => { result := .error (.fsError e), st := st1, contextWrite := none }
        | .ok _ =>
          if path ∈ st1.pending_delete then
            let st2 := { st1 with pending_delete := st1.pending_delete.erase path }
            { result := .ok none, st := del_file st2 context, contextWrite := some 0 }
          else
            { result := .error .keyError, st := st1, contextWrite := none }
      else
        { result := .ok none, st := st1, contextWrite := none }

/-- `FSOperations.CloseFile`: when the context is at least
`MinimumFileHandler`, close the stream, unregister, zero the context;
otherwise do nothing. -/
def CloseFile (st : FSState) (context : Nat) : CbOut :=
  if MinimumFileHandler ≤ context then
    match get_file st context with
    | .error e => { result := .error (.fsError e), st := st, contextWrite := none }
    | .ok of =>
      let closedFile := { of.file with closed := true }
      let st1 := { st with
        files_by_handle := aset context { of with file := closedFile } st.files_by_handle }
      { result := .ok none, st := del_file st1 context, contextWrite := some 0 }
  else
    { result := .ok none, st := st, contextWrite := none }

/-! ### ReadFile / WriteFile (src/dokan/__init__.py:588-646) -/

/-- Outcome of `ReadFile`: status/exception, new state, and the bytes
copied into the driver buffer with `ReadLength` (if reached). -/
structure ReadOut where
  result : Except PyExc (Option Nat)
  st : FSState
  readData : Option (List Nat)
  deriving Repr

/-- `FSOperations.ReadFile`: look up the handle, check byte-range locks
excluding our own (`DokanFileInfo` is passed, so `Context` locks are
skipped), transparently reopen a closed stream, seek, read, report the
byte count. -/
def ReadFile (vfs : VFS) (st : FSState) (path : VPath) (context : Nat)
    (bufferLength offset : Nat) : ReadOut :=
  match get_file st context with
  | .error e => { result := .error (.fsError e), st := st, readData := none }
  | .ok of =>
    let lockStatus := check_lock st path (some context) offset bufferLength
    if lockStatus ≠ 0 then
      { result := .ok (some lockStatus), st := st, readData := none }
    else
      let reopened : Except FSErr (Stream × FSState) :=
        if of.file.closed then
          match vfs.openResult path of.file.mode with
          | .error e => .error e
          | .ok f => .ok (f, rereg_file st context f)
        else .ok (of.file, st)
      match reopened with
      | .error e => { result := .error (.fsError e), st := st, readData := none }
      | .ok (f, st1) =>
        let f1 := f.seek offset
        let rd := f1.read bufferLength
        let st2 := { st1 with
          files_by_handle := aset context ⟨rd.2, path⟩ st1.files_by_handle }
        { result := .ok (some STATUS_SUCCESS), st := st2, readData := some rd.1 }

/-- Outcome of `WriteFile`: status/exception, new state, and the value
stored into `NumberOfBytesWritten` (if reached). -/
structure WriteOut where
  result : Except PyExc (Option Nat)
  st : FSState
  bytesWritten : Option Nat
  deriving Repr

/-- `FSOperations.WriteFile`.  `buf` is the `NumberOfBytesToWrite`-byte
copy `ctypes` makes of the driver buffer (`data.raw`), so its length *is*
`NumberOfBytesToWrite`.  `backendWrite` is the backend stream's `write`:
the source ignores its return value entirely, so it is an arbitrary
function here.  After the write, `NumberOfBytesWritten` is set to
`len(data.raw)` and, when the path/handle has a post-close size entry
smaller than `Offset + NumberOfBytesWritten`, that entry is raised to
`Offset + NumberOfBytesWritten` — using `Offset` even when
`WriteToEndOfFile` made the data land at end-of-file. -/
def WriteFile (vfs : VFS) (backendWrite : Stream → List Nat → Stream)
    (st : FSState) (path : VPath) (context : Nat) (buf : List Nat)
    (offset : Nat) (writeToEnd : Bool) : WriteOut :=
  match get_file st context with
  | .error e => { result := .error (.fsError e), st := st, bytesWritten := none }
  | .ok of =>
    let lockStatus := check_lock st path (some context) offset buf.length
    if lockStatus ≠ 0 then
      { result := .ok (some lockStatus), st := st, bytesWritten := none }
    else
      let reopened : Except FSErr (Stream × FSState) :=
        if of.file.closed then
          match vfs.openResult path of.file.mode with
          | .error e => .error e
          | .ok f => .ok (f, rereg_file st context f)
        else .ok (of.file, st)
      match reopened with
      | .error e => { result := .error (.fsError e), st := st, bytesWritten := none }
      | .ok (f, st1) =>
        let f1 := if writeToEnd then f.seekEnd else f.seek offset
        let f2 := backendWrite f1 buf
        let written := buf.length
        let st2 := { st1 with
          files_by_handle := aset context ⟨f2, path⟩ st1.files_by_handle }
        let st3 :=
          match (alookup path st2.files_size_written).bind (alookup context) with
          | none => st2
          | some sizeWritten =>
            if offset + written > sizeWritten then
              let sizes := (alookup path st2.files_size_written).getD []
              let sw2 := aset path (aset context (offset + written) sizes) st2.files_size_written
              { st2 with files_size_written := sw2 }
            else st2
        { result := .ok (some STATUS_SUCCESS), st := st3, bytesWritten := some written }

/-- The post-close written size recorded for a path and handle. -/
def getSizeWritten (st : FSState) (path : VPath) (context : Nat) : Option Nat :=
  (alookup path st.files_size_written).bind (alookup context)

/-! ### FlushFileBuffers / SetEndOfFile / MoveFile (src/dokan/__init__.py:648-658, 758-793) -/

/-- `FSOperations.FlushFileBuffers`: look up the handle, `file.flush()`
(no observable effect on the embedded stream), return success. -/
def FlushFileBuffers (st : FSState) (context : Nat) : CbOut :=
  match get_file st context with
  | .error e => { result := .error (.fsError e), st := st, contextWrite := none }
  | .ok _ => { result := .ok (some STATUS_SUCCESS), st := st, contextWrite := none }

/-- The stream manipulation of `FSOperations.SetEndOfFile`: remember the
position, seek to the new size unless already there, truncate, and when
the old position was below the new size seek back to
`min(pos, AllocSize)`. -/
def setEndOfFileStream (allocSize : Nat) (file : Stream) : Stream :=
  let pos := file.tell
  let f1 := if allocSize ≠ pos then file.seek allocSize else file
  let f2 := f1.truncate
  if pos < allocSize then f2.seek (min pos allocSize) else f2

/-- `FSOperations.SetEndOfFile`: handle lookup plus the stream
manipulation above. -/
def SetEndOfFile (st : FSState) (context : Nat) (allocSize : Nat) : CbOut :=
  match get_file st context with
  | .error e => { result := .error (.fsError e), st := st, contextWrite := none }
  | .ok of =>
    let f2 := setEndOfFileStream allocSize of.file
    { result := .ok (some STATUS_SUCCESS)
      st := { st with files_by_handle := aset context { of with file := f2 } st.files_by_handle }
      contextWrite := none }

/-- `FSOperations.MoveFile`: when the context holds a registered handle
(`>= MinimumFileHandler`), close it and unregister (the context itself is
not zeroed by the source); then `movedir`/`move` on the VFS. -/
def MoveFile (vfs : VFS) (st : FSState) (path newPath : VPath) (context : Nat)
    (isDirectory : Bool) : CbOut :=
  let closeStep : Except PyExc FSState :=
    if MinimumFileHandler ≤ context then
      match get_file st context with
      | .error e => .error (.fsError e)
      | .ok of =>
        let closedFile := { of.file with closed := true }
        let st1 := { st with
          files_by_handle := aset context { of with file := closedFile } st.files_by_handle }
        .ok (del_file st1 context)
    else .ok st
  match closeStep with
  | .error e => { result := .error e, st := st, contextWrite := none }
  | .ok st1 =>
    match (if isDirectory then vfs.movedirResult path newPath else vfs.moveResult path newPath) with
    | .error e => { result := .error (.fsError e), st := st1, contextWrite := none }
    | .ok _ => { result := .ok (some STATUS_SUCCESS), st := st1, contextWrite := none }

/-! ### Registry traces (claim C8)

Within one mount session the registry is touched through `_reg_file`,
`_del_file` and `_rereg_file` only; a session is a sequence of such calls
starting from the freshly-constructed state. -/

inductive RegOp where
  | register (f : Stream) (p : VPath)
  | unregister (handle : Nat)
  | rebind (handle : Nat) (f : Stream)
  deriving DecidableEq, Repr

/-- One registry call; `register` returns the allocated handle. -/
def regStep (st : FSState) : RegOp → FSState × Option Nat
  | .register f p => let r := reg_file st f p; (r.2, some r.1)
  | .unregister handle => (del_file st handle, none)
  | .rebind handle f => (rereg_file st handle f, none)

/-- Run a sequence of registry calls, collecting every handle returned by
`register`, in order. -/
def runRegOps (st : FSState) : List RegOp → FSState × List Nat
  | [] => (st, [])
  | op :: rest =>
    let r := regStep st op
    let rr := runRegOps r.1 rest
    (rr.1, (r.2.toList) ++ rr.2)

/-! ### PathMap (src/fs_legacy.py:45-152)

The trie: each level is a Python dict mapping a name component to a child
dict, with the distinguished key `""` holding the value stored at that
path.  Embedded as a mutual inductive (`Option V` = presence of the `""`
key, `Children` = the other entries in insertion order). -/

mutual
inductive Trie (V : Type) where
  | node (val : Option V) (children : Children V)
inductive Children (V : Type) where
  | nil
  | cons (name : String) (t : Trie V) (rest : Children V)
end

def Children.isNil {V : Type} : Children V → Bool
  | .nil => true
  | .cons _ _ _ => false

def Children.clookup {V : Type} (name : String) : Children V → Option (Trie V)
  | .nil => none
  | .cons n t rest => if n = name then some t else clookup name rest

def Children.cset {V : Type} (name : String) (c : Trie V) : Children V → Children V
  | .nil => .cons name c .nil
  | .cons n t rest => if n = name then .cons n c rest else .cons n t (cset name c rest)

def Children.cerase {V : Type} (name : String) : Children V → Children V
  | .nil => .nil
  | .cons n t rest => if n = name then rest else .cons n t (cerase name rest)

/-- A dict node is non-empty: it has the `""` value key or a child. -/
def Trie.nonEmpty {V : Type} : Trie V → Bool
  | .node v cs => v.isSome || !cs.isNil

mutual
/-- Every dict in this subtree, the subtree's own root included, is
non-empty. -/
def subtreeInv {V : Type} : Trie V → Bool
  | .node v cs => (v.isSome || !cs.isNil) && childrenInv cs
/-- Every dict hanging below these children is non-empty. -/
def childrenInv {V : Type} : Children V → Bool
  | .nil => true
  | .cons _ t rest => subtreeInv t && childrenInv rest
end

/-- Every dict reachable from the root of the map, the root itself
excepted (`PathMap._map` may legitimately be empty), is non-empty. -/
def rootInv {V : Type} : Trie V → Bool
  | .node _ cs => childrenInv cs

/-- The shared traversal/pruning of `PathMap.__delitem__`
(src/fs_legacy.py:108-125) and `PathMap.pop` (src/fs_legacy.py:134-152):
walk down the components, remove the `""` key at the foot, then walk back
up deleting every dict that has become empty (`while len(ms) > 1 and not
ms[-1][0]`).  Result `none` is the `KeyError` case (path component missing
or no value at the foot); `some (v, none)` means the subtree became empty
and is pruned by its parent; `some (v, some t)` is the remaining subtree.
`__delitem__` raises on `none`; `pop` returns its default and leaves the
map untouched. -/
def delPathAux {V : Type} (t : Trie V) : List String → Option (V × Option (Trie V))
  | [] =>
    match t with
    | .node none _ => none
    | .node (some v) cs => some (v, if cs.isNil then none else some (.node none cs))
  | name :: rest =>
    match t with
    | .node v cs =>
      match cs.clookup name with
      | none => none
      | some child =>
        match delPathAux child rest with
        | none => none
        | some (val, none) =>
          let cs2 := cs.cerase name
          some (val, if v.isNone && cs2.isNil then none else some (.node v cs2))
        | some (val, some c2) => some (val, some (.node v (cs.cset name c2)))

/-- `PathMap.__delitem__`: `none` = `KeyError` raised; on success the new
map (the root dict object survives even when emptied). -/
def PathMap.delitem {V : Type} (t : Trie V) (path : List String) : Option (Trie V) :=
  (delPathAux t path).map (fun r => r.2.getD (.node none .nil))

/-- `PathMap.pop` with `default=None`: the popped value (or `none`) and
the resulting map (unchanged on `KeyError`). -/
def PathMap.pop {V : Type} (t : Trie V) (path : List String) : Option V × Trie V :=
  match delPathAux t path with
  | none => (none, t)
  | some (v, r) => (some v, r.getD (.node none .nil))

/-! ### FILETIME and datetime conversion (src/dokan/__init__.py:248-251, 939-969) -/

/-- A dynamically-typed value reaching the time-conversion helpers:
Python `None`, a `datetime.datetime` (represented by its proleptic-UTC
second count from year 1, so `DATETIME_ZERO = datetime(1,1,1)` is
`pydatetime 0`), or a plain number (a POSIX timestamp). -/
inductive PyVal where
  | pynone
  | pydatetime (seconds : Int)
  | pynum (ts : Int)
  deriving DecidableEq, Repr

/-- `DATETIME_ZERO = datetime.datetime(1, 1, 1, 0, 0, 0)`. -/
def DATETIME_ZERO : PyVal := .pydatetime 0

def FILETIME_UNIX_EPOCH : Int := 116444736000000000

/-- The `libdokan.FILETIME` struct: 100-ns-since-1601 split into 32-bit
halves. -/
structure FILETIME where
  dwLowDateTime : Int
  dwHighDateTime : Int
  deriving DecidableEq, Repr

/-- Python `value * k` for an int `k`: defined for numbers, a `TypeError`
(`none`) for `datetime.datetime` and `None`, which define no such
multiplication. -/
def pymulInt : PyVal → Int → Option Int
  | .pynum x, k => some (x * k)
  | _, _ => none

/-- `_timestamp2filetime` (src/dokan/__init__.py:944-946): expects a
numeric POSIX timestamp; evaluates `TimeStamp * 10000000`, so a
non-numeric argument raises `TypeError` (`none`).  Python `& 0xffffffff`
and `>> 32` are arithmetic mod/floor-shift on unbounded ints, i.e. `emod`
and `ediv` by `2 ^ 32`. -/
def timestamp2filetime (t : PyVal) : Option FILETIME :=
  (pymulInt t 10000000).map (fun p =>
    let f := FILETIME_UNIX_EPOCH + p
    ⟨f.emod 4294967296, f.ediv 4294967296⟩)

/-- `_datetime2filetime` (src/dokan/__init__.py:963-969): `None` and the
sentinel `DATETIME_ZERO` map to `FILETIME(0, 0)`; everything else is
passed to `_timestamp2filetime` — whose multiplication raises `TypeError`
for actual `datetime` objects. -/
def datetime2filetime (d : PyVal) : Option FILETIME :=
  match d with
  | .pynone => some ⟨0, 0⟩
  | _ => if d = DATETIME_ZERO then some ⟨0, 0⟩ else timestamp2filetime d

/-- `_filetime2datetime` (src/dokan/__init__.py:954-960): `None` or the
all-zero struct yield the sentinel `DATETIME_ZERO`; any other struct is
converted via `_timestamp2datetime(_filetime2timestamp(...))`, abstracted
here as `conv` (its value goes through `datetime.fromtimestamp`, which
depends on the host timezone). -/
def filetime2datetime (conv : FILETIME → PyVal) (ft : Option FILETIME) : PyVal :=
  match ft with
  | none => DATETIME_ZERO
  | some f =>
    if f.dwLowDateTime = 0 ∧ f.dwHighDateTime = 0 then DATETIME_ZERO else conv f

/-! ### Association-list lemmas -/

theorem alookup_aset_self {α β : Type} [DecidableEq α] (k : α) (v : β)
    (l : List (α × β)) : alookup k (aset k v l) = some v := by
  induction l with
  | nil => simp [aset, alookup]
  | cons p rest ih =>
    obtain ⟨a, b⟩ := p
    by_cases h : a = k <;> simp [aset, alookup, h, ih]

/-! ### C3: errno → NT status translation -/

/-- C3: The errno-to-NT-status translation is a total function taking
`EEXIST` to `STATUS_OBJECT_NAME_COLLISION`, `ENOTEMPTY` to
`STATUS_DIRECTORY_NOT_EMPTY`, `ENOSYS` to `STATUS_NOT_SUPPORTED`,
`EACCES` to `STATUS_ACCESS_DENIED`, and any other errno to itself; and
composed with `convert_fs_errors`, each VFS error kind yields exactly the
one status determined by its errno, with `Unsupported` (ENOSYS) always
giving `STATUS_NOT_SUPPORTED`. -/
theorem errno_translation_table :
    (errno2syserrcode EEXIST = STATUS_OBJECT_NAME_COLLISION ∧
     errno2syserrcode ENOTEMPTY = STATUS_DIRECTORY_NOT_EMPTY ∧
     errno2syserrcode ENOSYS = STATUS_NOT_SUPPORTED ∧
     errno2syserrcode EACCES = STATUS_ACCESS_DENIED) ∧
    (∀ eno : Nat, eno ≠ EEXIST → eno ≠ ENOTEMPTY → eno ≠ ENOSYS → eno ≠ EACCES →
      errno2syserrcode eno = eno) ∧
    (∀ win32 : Bool, ∀ e : FSErr,
      handle_fs_errors_status win32 (.error (.fsError e)) =
        some (errno2syserrcode (convert_fs_errors_errno win32 e))) ∧
    (∀ win32 : Bool,
      handle_fs_errors_status win32 (.error (.fsError .unsupported)) =
        some STATUS_NOT_SUPPORTED) := by
  refine ⟨by decide, ?_, ?_, ?_⟩
  · intro eno h1 h2 h3 h4
    simp [errno2syserrcode, h1, h2, h3, h4]
  · intro win32 e
    cases e <;> cases win32 <;> rfl
  · intro win32
    cases win32 <;> rfl

/-- Witness for C3 at a concrete errno (`ESRCH = 3` is none of the four
specially-mapped values, so it passes through). -/
theorem errno_translation_table_witness : errno2syserrcode 3 = 3 :=
  errno_translation_table.2.1 3 (by decide) (by decide) (by decide) (by decide)

/-! ### C6: FILETIME / datetime conversion -/

/-- C6 (code bug): the sentinel really is bidirectional — `FILETIME(0,0)`
converts to `DATETIME_ZERO` (whatever the timestamp-conversion function
does on other inputs), and `DATETIME_ZERO` (and Python `None`) convert to
`FILETIME(0,0)` — but for every actual date-time object the forward
conversion raises `TypeError` (result `none`): `_datetime2filetime` hands
the datetime itself to `_timestamp2filetime`, which multiplies it by
10000000.  The claimed round trip therefore fails for every real
date-time; shown here at the datetime for 2020-01-01 (63713433600 s after
year 1). -/
theorem filetime_sentinel_and_datetime_type_error :
    (∀ conv : FILETIME → PyVal,
      filetime2datetime conv (some ⟨0, 0⟩) = DATETIME_ZERO) ∧
    datetime2filetime DATETIME_ZERO = some ⟨0, 0⟩ ∧
    datetime2filetime .pynone = some ⟨0, 0⟩ ∧
    datetime2filetime (.pydatetime 63713433600) = none := by
  exact ⟨fun conv => rfl, rfl, rfl, rfl⟩

/-! ### C7: SetEndOfFile -/

/-- The stream produced by the `SetEndOfFile` seek/truncate/seek dance:
content resized at the new size, position clamped to it. -/
theorem setEndOfFileStream_eq (allocSize : Nat) (f : Stream) :
    setEndOfFileStream allocSize f =
      { f with data := resizeTo allocSize f.data, pos := min f.pos allocSize } := by
  unfold setEndOfFileStream Stream.tell Stream.seek Stream.truncate resizeTo
  by_cases h1 : allocSize = f.pos
  · subst h1
    simp
  · by_cases h2 : f.pos < allocSize <;> (simp [h1, h2]; try omega)

/-- C7: after a successful `SetEndOfFile` with new size `S` on a
registered handle, the handle's stream has content truncated (resized) at
offset `S` and its position is `min(p, S)` where `p` was the position
before the call. -/
theorem setEndOfFile_truncates_and_clamps (st : FSState) (context allocSize : Nat)
    (of : OpenFile) (hreg : alookup context st.files_by_handle = some of) :
    (SetEndOfFile st context allocSize).result = .ok (some STATUS_SUCCESS) ∧
    alookup context (SetEndOfFile st context allocSize).st.files_by_handle =
      some { of with file := { of.file with
               data := resizeTo allocSize of.file.data
               pos := min of.file.pos allocSize } } := by
  unfold SetEndOfFile get_file
  rw [hreg]
  refine ⟨rfl, ?_⟩
  simp only [alookup_aset_self, setEndOfFileStream_eq]

/-- Witness for C7: a registered handle whose stream holds 5 bytes at
position 4, truncated to size 2. -/
theorem setEndOfFile_truncates_and_clamps_witness :
    (SetEndOfFile
        { initialFSState with
          files_by_handle :=
            [(100, ⟨⟨[10, 11, 12, 13, 14], 4, false, "r+b"⟩, ["t.txt"]⟩)] }
        100 2).result = .ok (some STATUS_SUCCESS) ∧
    alookup 100 (SetEndOfFile
        { initialFSState with
          files_by_handle :=
            [(100, ⟨⟨[10, 11, 12, 13, 14], 4, false, "r+b"⟩, ["t.txt"]⟩)] }
        100 2).st.files_by_handle =
      some ⟨⟨[10, 11], 2, false, "r+b"⟩, ["t.txt"]⟩ := by
  have h := setEndOfFile_truncates_and_clamps
    { initialFSState with
      files_by_handle :=
        [(100, ⟨⟨[10, 11, 12, 13, 14], 4, false, "r+b"⟩, ["t.txt"]⟩)] }
    100 2 ⟨⟨[10, 11, 12, 13, 14], 4, false, "r+b"⟩, ["t.txt"]⟩ (by decide)
  exact ⟨h.1, by rw [h.2]; rfl⟩

/-! ### C1: LockFile -/

theorem check_lock_list_success_or_refused (context : Option Nat) (offset length : Nat)
    (locks : List (Nat × Nat × Nat)) :
    check_lock_list context offset length locks = STATUS_SUCCESS ∨
    check_lock_list context offset length locks = STATUS_LOCK_NOT_GRANTED := by
  induction locks with
  | nil => left; rfl
  | cons l rest ih =>
    obtain ⟨lh, lstart, lend⟩ := l
    unfold check_lock_list
    split_ifs <;> first | exact ih | (right; rfl)

/-- With `DokanFileInfo = None` (as `LockFile` passes it), the lock check
succeeds iff every held lock misses the requested range, with *no* lock
excluded by ownership. -/
theorem check_lock_list_none_success_iff (offset length : Nat)
    (locks : List (Nat × Nat × Nat)) :
    check_lock_list none offset length locks = STATUS_SUCCESS ↔
      ∀ l ∈ locks, offset + length ≤ l.2.1 ∨ l.2.2 ≤ offset := by
  induction locks with
  | nil => simp [check_lock_list]
  | cons l rest ih =>
    obtain ⟨lh, lstart, lend⟩ := l
    have hstep : check_lock_list none offset length ((lh, lstart, lend) :: rest) =
        if offset + length ≤ lstart then check_lock_list none offset length rest
        else if lend ≤ offset then check_lock_list none offset length rest
        else STATUS_LOCK_NOT_GRANTED := rfl
    rw [hstep]
    by_cases h1 : offset + length ≤ lstart
    · rw [if_pos h1, ih]
      simp only [List.mem_cons, forall_eq_or_imp]
      exact ⟨fun h => ⟨Or.inl h1, h⟩, fun h => h.2⟩
    · by_cases h2 : lend ≤ offset
      · rw [if_neg h1, if_pos h2, ih]
        simp only [List.mem_cons, forall_eq_or_imp]
        exact ⟨fun h => ⟨Or.inr h2, h⟩, fun h => h.2⟩
      · rw [if_neg h1, if_neg h2]
        constructor
        · intro h
          exact absurd h (by decide)
        · intro h
          have h3 := h (lh, lstart, lend) (List.mem_cons_self _ _)
          simp at h3
          rcases h3 with h3 | h3 <;> omega

/-- Two half-open ranges `[a, a+L)` and `[a2, b2)`, both non-empty,
intersect iff each starts before the other ends. -/
theorem range_overlap_iff (a L a2 b2 : Nat) (hL : 0 < L) (hr : a2 < b2) :
    (a2 < a + L ∧ a < b2) ↔ ∃ x, a ≤ x ∧ x < a + L ∧ a2 ≤ x ∧ x < b2 := by
  constructor
  · rintro ⟨h1, h2⟩
    exact ⟨max a a2, by omega, by omega, by omega, by omega⟩
  · rintro ⟨x, hx1, hx2, hx3, hx4⟩
    omega

/-- C1 counterexample: on a path whose only held lock `(100, 0, 10)` is
owned by the requesting handle 100 itself, `LockFile` for range `[5, 10)`
is refused with `STATUS_LOCK_NOT_GRANTED` and the table is left unchanged,
although no held lock has a different owner — `LockFile` passes
`DokanFileInfo = None` to `_check_lock`, so its own locks are not
excluded. -/
theorem lockfile_refuses_own_lock :
    (∀ l ∈ getLocks { initialFSState with
        active_locks := [(["a.txt"], [(100, 0, 10)])] } ["a.txt"], l.1 = 100) ∧
    (LockFile { initialFSState with
        active_locks := [(["a.txt"], [(100, 0, 10)])] } ["a.txt"] 5 5 100).1 =
      STATUS_LOCK_NOT_GRANTED ∧
    (LockFile { initialFSState with
        active_locks := [(["a.txt"], [(100, 0, 10)])] } ["a.txt"] 5 5 100).2 =
      { initialFSState with active_locks := [(["a.txt"], [(100, 0, 10)])] } ∧
    STATUS_LOCK_NOT_GRANTED ≠ STATUS_SUCCESS := by
  refine ⟨by decide, by decide, by decide, by decide⟩

/-- C1 amended: a `LockFile` request by handle `h` for `[a, a+L)` is
granted (appended to the table with `STATUS_SUCCESS`) iff every held lock
`(h2, a2, b2)` on that path — the requester's own locks included — passes
the code's non-overlap test `a + L ≤ a2 ∨ b2 ≤ a`; when some held lock
fails that test, the request is refused with `STATUS_LOCK_NOT_GRANTED`
and the whole state is unchanged, whatever the owners.  For non-degenerate
ranges (`L > 0` and every held lock non-empty) the non-overlap test is
exactly the emptiness of the intersection `[a, a+L) ∩ [a2, b2)` — the
final conjunct; the test and the intersection differ only on degenerate
ranges, which the table can hold, since the first lock on a path is
appended without any check. -/
theorem lockfile_grant_iff_no_overlap (st : FSState) (path : VPath)
    (a L context : Nat) :
    (((LockFile st path a L context).1 = STATUS_SUCCESS ∧
      (LockFile st path a L context).2.active_locks =
        aset path (getLocks st path ++ [(context, a, a + L)]) st.active_locks)
      ↔ ∀ l ∈ getLocks st path, a + L ≤ l.2.1 ∨ l.2.2 ≤ a) ∧
    ((¬ ∀ l ∈ getLocks st path, a + L ≤ l.2.1 ∨ l.2.2 ≤ a) →
      (LockFile st path a L context).1 = STATUS_LOCK_NOT_GRANTED ∧
      (LockFile st path a L context).2 = st) ∧
    (0 < L → (∀ l ∈ getLocks st path, l.2.1 < l.2.2) →
      ((∀ l ∈ getLocks st path, a + L ≤ l.2.1 ∨ l.2.2 ≤ a) ↔
        ∀ l ∈ getLocks st path,
          ¬ ∃ x, a ≤ x ∧ x < a + L ∧ l.2.1 ≤ x ∧ x < l.2.2)) := by
  have hdistinct : STATUS_LOCK_NOT_GRANTED ≠ STATUS_SUCCESS := by decide
  have bridge : 0 < L → (∀ l ∈ getLocks st path, l.2.1 < l.2.2) →
      ((∀ l ∈ getLocks st path, a + L ≤ l.2.1 ∨ l.2.2 ≤ a) ↔
        ∀ l ∈ getLocks st path,
          ¬ ∃ x, a ≤ x ∧ x < a + L ∧ l.2.1 ≤ x ∧ x < l.2.2) := by
    intro hL hpos
    constructor
    · intro h l hl
      rcases h l hl with h1 | h1 <;> (rintro ⟨x, hx1, hx2, hx3, hx4⟩; omega)
    · intro h l hl
      have h2 := h l hl
      by_contra hcon
      push_neg at hcon
      exact h2 ((range_overlap_iff a L l.2.1 l.2.2 hL (hpos l hl)).mp (by omega))
  cases halookup : alookup path st.active_locks with
  | none =>
    have hlocks : getLocks st path = [] := by simp [getLocks, halookup]
    have hLF : LockFile st path a L context =
        (STATUS_SUCCESS,
          { st with active_locks := aset path [(context, a, a + L)] st.active_locks }) := by
      unfold LockFile
      rw [halookup]
    refine ⟨?_, ?_, bridge⟩
    · rw [hLF, hlocks]
      simp
    · rw [hlocks]
      intro hcon
      exact absurd (by simp) hcon
  | some locks =>
    have hlocks : getLocks st path = locks := by simp [getLocks, halookup]
    rcases check_lock_list_success_or_refused none a L locks with hcl | hcl
    · have hLF : LockFile st path a L context =
          (STATUS_SUCCESS,
            { st with
              active_locks := aset path (locks ++ [(context, a, a + L)]) st.active_locks }) := by
        unfold LockFile
        rw [halookup]
        simp [hcl]
      refine ⟨?_, ?_, bridge⟩
      · rw [hLF, hlocks]
        constructor
        · intro _
          exact (check_lock_list_none_success_iff a L locks).mp hcl
        · intro _
          exact ⟨rfl, rfl⟩
      · rw [hlocks]
        intro hcon
        exact absurd ((check_lock_list_none_success_iff a L locks).mp hcl) hcon
    · have hne : check_lock_list none a L locks ≠ STATUS_SUCCESS := by
        rw [hcl]
        exact hdistinct
      have hLF : LockFile st path a L context = (check_lock_list none a L locks, st) := by
        unfold LockFile
        rw [halookup]
        simp [hne]
      refine ⟨?_, ?_, bridge⟩
      · rw [hLF, hlocks]
        constructor
        · intro hsg
          exact absurd hsg.1 hne
        · intro h
          exact absurd ((check_lock_list_none_success_iff a L locks).mpr h) hne
      · intro _
        rw [hLF]
        exact ⟨hcl, rfl⟩

/-- Witness for C1 amended: with held lock `(7, 0, 5)`, the disjoint
request `[10, 13)` by handle 1 is granted and appended, and the
overlapping request `[3, 7)` by handle 1 is refused with the state left
unchanged. -/
theorem lockfile_grant_iff_no_overlap_witness :
    ((LockFile { initialFSState with
        active_locks := [(["a.txt"], [(7, 0, 5)])] } ["a.txt"] 10 3 1).1 =
      STATUS_SUCCESS ∧
    (LockFile { initialFSState with
        active_locks := [(["a.txt"], [(7, 0, 5)])] } ["a.txt"] 10 3 1).2.active_locks =
      [(["a.txt"], [(7, 0, 5), (1, 10, 13)])]) ∧
    ((LockFile { initialFSState with
        active_locks := [(["a.txt"], [(7, 0, 5)])] } ["a.txt"] 3 4 1).1 =
      STATUS_LOCK_NOT_GRANTED ∧
    (LockFile { initialFSState with
        active_locks := [(["a.txt"], [(7, 0, 5)])] } ["a.txt"] 3 4 1).2 =
      { initialFSState with active_locks := [(["a.txt"], [(7, 0, 5)])] }) := by
  constructor
  · have h := ((lockfile_grant_iff_no_overlap
        { initialFSState with active_locks := [(["a.txt"], [(7, 0, 5)])] }
        ["a.txt"] 10 3 1).1).mpr (by decide)
    exact ⟨h.1, by rw [h.2]; rfl⟩
  · exact (lockfile_grant_iff_no_overlap
        { initialFSState with active_locks := [(["a.txt"], [(7, 0, 5)])] }
        ["a.txt"] 3 4 1).2.1 (by decide)

/-! ### C2: invalid-handle status at the driver boundary -/

/-- A backend that answers every query affirmatively and opens empty
streams — enough to drive the callback models on concrete inputs. -/
def trivialVFS : VFS :=
  { isdir := fun _ => false
    existsp := fun _ => true
    isfile := fun _ => true
    makedirResult := fun _ => .ok true
    openResult := fun _ m => .ok { data := [], pos := 0, closed := false, mode := m }
    removeResult := fun _ => .ok ()
    removedirResult := fun _ => .ok ()
    moveResult := fun _ _ => .ok ()
    movedirResult := fun _ _ => .ok () }

/-- The driver-boundary status produced for the `FSError("invalid file
handle")` raised by `_get_file`: `convert_fs_errors` turns it into
`OSError(EFAULT, ...)` and `handle_fs_errors` passes the nonzero errno
through `_errno2syserrcode`, which leaves `EFAULT = 14` unchanged. -/
theorem invalid_handle_status_value (win32 : Bool) :
    handle_fs_errors_status win32 (.error (.fsError .otherFSError)) = some EFAULT := by
  cases win32 <;> rfl

/-- C2 counterexample: `ReadFile` with the unregistered context 100
(nothing is registered in the initial state) returns status 14 — the raw
`EFAULT` errno — not `STATUS_ACCESS_DENIED` (0xC0000022). -/
theorem invalid_handle_not_access_denied :
    alookup 100 initialFSState.files_by_handle = none ∧
    handle_fs_errors_status true
        (ReadFile trivialVFS initialFSState ["t.txt"] 100 1024 0).result = some 14 ∧
    (14 : Nat) ≠ STATUS_ACCESS_DENIED := by
  refine ⟨rfl, rfl, by decide⟩

/-- C2 amended: for each dispatcher callback that looks up the
driver-supplied context (Cleanup on files, CloseFile, ReadFile, WriteFile,
FlushFileBuffers, SetEndOfFile, MoveFile), an unregistered context (at or
above `MinimumFileHandler` where the callback guards on that) produces the
status `EFAULT = 14` — the errno of the `OSError` that `convert_fs_errors`
builds from the invalid-handle `FSError`, passed through unchanged by
`_errno2syserrcode`; `STATUS_ACCESS_DENIED` would require an `OSError`
with no errno. -/
theorem invalid_handle_raw_efault (vfs : VFS) (bw : Stream → List Nat → Stream)
    (st : FSState) (path newPath : VPath) (context : Nat) (buf : List Nat)
    (n offset allocSize : Nat) (wte dod isDir : Bool) (win32 : Bool)
    (hmiss : alookup context st.files_by_handle = none)
    (hmin : MinimumFileHandler ≤ context) :
    handle_fs_errors_status win32 (Cleanup vfs st path context false dod).result = some EFAULT ∧
    handle_fs_errors_status win32 (CloseFile st context).result = some EFAULT ∧
    handle_fs_errors_status win32 (ReadFile vfs st path context n offset).result = some EFAULT ∧
    handle_fs_errors_status win32
      (WriteFile vfs bw st path context buf offset wte).result = some EFAULT ∧
    handle_fs_errors_status win32 (FlushFileBuffers st context).result = some EFAULT ∧
    handle_fs_errors_status win32 (SetEndOfFile st context allocSize).result = some EFAULT ∧
    handle_fs_errors_status win32
      (MoveFile vfs st path newPath context isDir).result = some EFAULT := by
  have hg : get_file st context = .error .otherFSError := by
    unfold get_file
    rw [hmiss]
  have hp := invalid_handle_status_value win32
  refine ⟨?_, ?_, ?_, ?_, ?_, ?_, ?_⟩
  · simp [Cleanup, hg, hp]
  · simp [CloseFile, hg, hp, hmin]
  · simp [ReadFile, hg, hp]
  · simp [WriteFile, hg, hp]
  · simp [FlushFileBuffers, hg, hp]
  · simp [SetEndOfFile, hg, hp]
  · simp [MoveFile, hg, hp, hmin]

/-- Witness for C2 amended at the initial state and context 100. -/
theorem invalid_handle_raw_efault_witness :
    handle_fs_errors_status true (FlushFileBuffers initialFSState 100).result = some EFAULT :=
  (invalid_handle_raw_efault trivialVFS (fun s _ => s) initialFSState ["t.txt"] ["u.txt"]
    100 [] 0 0 0 false false false true (by decide) (by decide)).2.2.2.2.1

/-! ### C4: pending-delete paths refuse ZwCreateFile -/

/-- `_is_pending_delete` holds exactly when the path or one of its
ancestors (a `take`-prefix of its component list) is in the set. -/
theorem is_pending_delete_iff (pending : List VPath) (p : VPath) :
    is_pending_delete pending p = true ↔ ∃ n : Nat, p.take n ∈ pending := by
  unfold is_pending_delete recursepath
  rw [List.any_eq_true]
  constructor
  · rintro ⟨q, hq, hmem⟩
    rw [List.mem_map] at hq
    obtain ⟨n, _, rfl⟩ := hq
    exact ⟨n, by simpa using hmem⟩
  · rintro ⟨n, hmem⟩
    refine ⟨p.take (min n p.length), ?_, ?_⟩
    · rw [List.mem_map]
      refine ⟨min n p.length, ?_, rfl⟩
      rw [List.mem_range]
      omega
    · have heq : p.take (min n p.length) = p.take n := by
        rcases Nat.le_total n p.length with h | h
        · rw [Nat.min_eq_left h]
        · rw [Nat.min_eq_right h, List.take_of_length_le h, List.take_of_length_le le_rfl]
      rw [heq]
      simpa using hmem

/-- C4: when the path or any ancestor is pending delete, `ZwCreateFile`
returns `STATUS_ACCESS_DENIED` immediately: no VFS call is made, no handle
registered, no context written, the state untouched; the wrapped status is
`STATUS_ACCESS_DENIED` as well. -/
theorem zwcreate_pending_delete_denied (vfs : VFS) (st : FSState) (path : VPath)
    (da disp copts : Nat) (isDirIn : Bool) (win32 : Bool)
    (hpend : ∃ n : Nat, path.take n ∈ st.pending_delete) :
    ZwCreateFile vfs st path da disp copts isDirIn =
      { result := .ok STATUS_ACCESS_DENIED, st := st, contextWrite := none
        isDirOut := isDirIn, actions := [] } ∧
    handle_fs_errors_status win32
        ((ZwCreateFile vfs st path da disp copts isDirIn).result.map some) =
      some STATUS_ACCESS_DENIED := by
  have h := (is_pending_delete_iff st.pending_delete path).mpr hpend
  have h1 : ZwCreateFile vfs st path da disp copts isDirIn =
      { result := .ok STATUS_ACCESS_DENIED, st := st, contextWrite := none
        isDirOut := isDirIn, actions := [] } := by
    unfold ZwCreateFile
    rw [h]
    rfl
  rw [h1]
  exact ⟨rfl, rfl⟩

/-- Witness for C4: the directory `/d` is pending delete, opening `/d/x`
is denied without side effects. -/
theorem zwcreate_pending_delete_denied_witness :
    ZwCreateFile trivialVFS { initialFSState with pending_delete := [["d"]] }
        ["d", "x"] FILE_READ_DATA FILE_OPEN 0 false =
      { result := .ok STATUS_ACCESS_DENIED
        st := { initialFSState with pending_delete := [["d"]] }
        contextWrite := none, isDirOut := false, actions := [] } :=
  (zwcreate_pending_delete_denied trivialVFS
    { initialFSState with pending_delete := [["d"]] }
    ["d", "x"] FILE_READ_DATA FILE_OPEN 0 false true ⟨1, by decide⟩).1

/-! ### C5: DELETE_ON_CLOSE marking in ZwCreateFile -/

theorem not_mem_pending_of_false {pending : List VPath} {p : VPath}
    (h : is_pending_delete pending p = false) : p ∉ pending := by
  intro hmem
  have htrue : is_pending_delete pending p = true :=
    (is_pending_delete_iff pending p).mpr ⟨p.length, by simpa [List.take_length] using hmem⟩
  rw [h] at htrue
  exact Bool.false_ne_true htrue

theorem mem_paddPending_self (p : VPath) (l : List VPath) : p ∈ paddPending p l := by
  unfold paddPending
  split_ifs with h
  · exact h
  · simp

/-- C5 counterexample: `ZwCreateFile` with disposition `FILE_OVERWRITE_IF`
and `FILE_DELETE_ON_CLOSE`, on an existing file, succeeds (return code
`FILE_OVERWRITTEN = 3`, handle 100 registered and written to the context)
— yet the pending-delete set stays empty, because the marking is guarded
by `retcode == STATUS_SUCCESS` and `FILE_OVERWRITTEN ≠ 0`. -/
theorem delete_on_close_overwrite_if_unmarked :
    (ZwCreateFile trivialVFS initialFSState ["f.txt"] FILE_WRITE_DATA
        FILE_OVERWRITE_IF FILE_DELETE_ON_CLOSE false).result = .ok FILE_OVERWRITTEN ∧
    (ZwCreateFile trivialVFS initialFSState ["f.txt"] FILE_WRITE_DATA
        FILE_OVERWRITE_IF FILE_DELETE_ON_CLOSE false).contextWrite = some 100 ∧
    (ZwCreateFile trivialVFS initialFSState ["f.txt"] FILE_WRITE_DATA
        FILE_OVERWRITE_IF FILE_DELETE_ON_CLOSE false).st.pending_delete = [] := by
  refine ⟨rfl, rfl, rfl⟩

/-- C5 amended: with `FILE_DELETE_ON_CLOSE` in the create options and the
path not already pending delete, a file-target `ZwCreateFile` adds the
path to the pending-delete set *iff* its return value is
`STATUS_SUCCESS` — so for dispositions `FILE_OPEN`, `FILE_CREATE`,
`FILE_OVERWRITE`, `FILE_OPEN_IF` and `FILE_SUPERSEDE` (whose return code
`FILE_SUPERSEDED` equals 0) when the open succeeds, but *not* for
`FILE_OVERWRITE_IF` (return code `FILE_OVERWRITTEN = 3`); and a
directory-target call never changes the dispatcher state at all. -/
theorem delete_on_close_marks_iff_success (vfs : VFS) (st : FSState) (path : VPath)
    (da disp copts : Nat)
    (hnp : is_pending_delete st.pending_delete path = false)
    (hdoc : copts &&& FILE_DELETE_ON_CLOSE ≠ 0) :
    (vfs.isdir path = false →
      (path ∈ (ZwCreateFile vfs st path da disp copts false).st.pending_delete ↔
        (ZwCreateFile vfs st path da disp copts false).result = .ok STATUS_SUCCESS)) ∧
    (∀ isDirIn : Bool, vfs.isdir path = true →
      (ZwCreateFile vfs st path da disp copts isDirIn).st = st) := by
  have hmem := not_mem_pending_of_false hnp
  constructor
  · intro hd
    unfold ZwCreateFile
    simp only [hnp, Bool.false_eq_true, if_false, hd, ite_self, Bool.false_or,
      Bool.or_self]
    by_cases hda : da = 0
    · simp [hda, hmem, STATUS_SUCCESS, FILE_DOES_NOT_EXIST]
    · simp only [hda, if_false]
      by_cases h1 : disp = FILE_OPEN
      · by_cases hex : vfs.existsp path
        · simp only [h1, hex, FILE_OPEN, if_true, if_pos rfl]
          cases hopen : vfs.openResult path "r+b" with
          | error e => simp [hopen, hmem]
          | ok f => simp [hopen, hdoc, reg_file, mem_paddPending_self, STATUS_SUCCESS]
        · simp [h1, hex, FILE_OPEN, hmem, STATUS_SUCCESS, FILE_DOES_NOT_EXIST]
      · by_cases h2 : disp = FILE_CREATE
        · by_cases hex : vfs.existsp path
          · simp [h1, h2, hex, FILE_OPEN, FILE_CREATE, hmem, STATUS_SUCCESS,
              ERROR_ALREADY_EXISTS]
          · simp only [h1, h2, hex, FILE_OPEN, FILE_CREATE, if_false, if_true, if_pos rfl]
            cases hopen : vfs.openResult path "w+b" with
            | error e => simp [hopen, hmem]
            | ok f => simp [hopen, hdoc, reg_file, mem_paddPending_self, STATUS_SUCCESS]
        · by_cases h3 : disp = FILE_OVERWRITE
          · by_cases hex : vfs.existsp path
            · simp only [h1, h2, h3, hex, FILE_OPEN, FILE_CREATE, FILE_OVERWRITE,
                if_false, if_true, if_pos rfl]
              cases hopen : vfs.openResult path "w+b" with
              | error e => simp [hopen, hmem]
              | ok f => simp [hopen, hdoc, reg_file, mem_paddPending_self, STATUS_SUCCESS]
            · simp [h1, h2, h3, hex, FILE_OPEN, FILE_CREATE, FILE_OVERWRITE, hmem,
                STATUS_SUCCESS, FILE_DOES_NOT_EXIST]
          · by_cases h4 : disp = FILE_OVERWRITE_IF
            · simp only [h1, h2, h3, h4, FILE_OPEN, FILE_CREATE, FILE_OVERWRITE,
                FILE_OVERWRITE_IF, if_false, if_true, if_pos rfl]
              cases hopen : vfs.openResult path "w+b" with
              | error e => simp [hopen, hmem]
              | ok f => simp [hopen, hmem, reg_file, STATUS_SUCCESS, FILE_OVERWRITTEN]
            · by_cases h5 : disp = FILE_SUPERSEDE
              · simp only [h1, h2, h3, h4, h5, FILE_OPEN, FILE_CREATE, FILE_OVERWRITE,
                  FILE_OVERWRITE_IF, FILE_SUPERSEDE, if_false, if_true, if_pos rfl]
                cases hopen : vfs.openResult path "w+b" with
                | error e => simp [hopen, hmem]
                | ok f => simp [hopen, hdoc, reg_file, mem_paddPending_self,
                    STATUS_SUCCESS, FILE_SUPERSEDED]
              · by_cases h6 : disp = FILE_OPEN_IF
                · simp only [h1, h2, h3, h4, h5, h6, FILE_OPEN, FILE_CREATE,
                    FILE_OVERWRITE, FILE_OVERWRITE_IF, FILE_SUPERSEDE, FILE_OPEN_IF,
                    if_false, if_true, if_pos rfl]
                  cases hopen : vfs.openResult path "w+b" with
                  | error e => simp [hopen, hmem]
                  | ok f => simp [hopen, hdoc, reg_file, mem_paddPending_self,
                      STATUS_SUCCESS]
                · simp only [h1, h2, h3, h4, h5, h6, if_false]
                  cases hopen : vfs.openResult path "r+b" with
                  | error e => simp [hopen, hmem]
                  | ok f => simp [hopen, hdoc, reg_file, mem_paddPending_self,
                      STATUS_SUCCESS]
  · intro isDirIn hdir
    unfold ZwCreateFile
    simp only [hnp, Bool.false_eq_true, if_false, hdir, Bool.true_or, if_true]
    split_ifs <;> first
      | rfl
      | (cases vfs.makedirResult path <;> rfl)

/-- Witness for C5 amended: `FILE_SUPERSEDE` + `FILE_DELETE_ON_CLOSE` on a
file target does mark the path pending delete (its return code
`FILE_SUPERSEDED` is numerically `STATUS_SUCCESS`). -/
theorem delete_on_close_marks_iff_success_witness :
    ["f.txt"] ∈ (ZwCreateFile trivialVFS initialFSState ["f.txt"] FILE_WRITE_DATA
        FILE_SUPERSEDE FILE_DELETE_ON_CLOSE false).st.pending_delete :=
  ((delete_on_close_marks_iff_success trivialVFS initialFSState ["f.txt"]
      FILE_WRITE_DATA FILE_SUPERSEDE FILE_DELETE_ON_CLOSE (by rfl) (by decide)).1
      (by rfl)).mpr (by rfl)

/-! ### C8: handle allocation -/

/-- Number of `register` calls in a registry trace. -/
def regCount : List RegOp → Nat
  | [] => 0
  | .register _ _ :: rest => regCount rest + 1
  | .unregister _ :: rest => regCount rest
  | .rebind _ _ :: rest => regCount rest

theorem del_file_next_handle (st : FSState) (handle : Nat) :
    (del_file st handle).next_handle = st.next_handle := by
  unfold del_file
  split
  · rfl
  · dsimp only
    split
    · rfl
    · split <;> rfl

theorem rereg_file_next_handle (st : FSState) (handle : Nat) (f : Stream) :
    (rereg_file st handle f).next_handle = st.next_handle := by
  unfold rereg_file
  split <;> rfl

/-- The handles a trace returns are exactly the consecutive integers from
the starting `next_handle`, which advances by the number of registers. -/
theorem runRegOps_spec (ops : List RegOp) : ∀ st : FSState,
    (runRegOps st ops).2 = List.range' st.next_handle (regCount ops) ∧
    (runRegOps st ops).1.next_handle = st.next_handle + regCount ops := by
  induction ops with
  | nil => intro st; simp [runRegOps, regCount]
  | cons op rest ih =>
    intro st
    cases op with
    | register f p =>
      have h := ih (reg_file st f p).2
      have hnext : (reg_file st f p).2.next_handle = st.next_handle + 1 := rfl
      constructor
      · show (reg_file st f p).1 :: (runRegOps (reg_file st f p).2 rest).2 = _
        rw [h.1, hnext, regCount, List.range'_succ]
        rfl
      · show (runRegOps (reg_file st f p).2 rest).1.next_handle = _
        rw [h.2, hnext, regCount]
        omega
    | unregister handle =>
      have h := ih (del_file st handle)
      have hnext := del_file_next_handle st handle
      constructor
      · show (runRegOps (del_file st handle) rest).2 = _
        rw [h.1, hnext, regCount]
      · show (runRegOps (del_file st handle) rest).1.next_handle = _
        rw [h.2, hnext, regCount]
    | rebind handle f =>
      have h := ih (rereg_file st handle f)
      have hnext := rereg_file_next_handle st handle f
      constructor
      · show (runRegOps (rereg_file st handle f) rest).2 = _
        rw [h.1, hnext, regCount]
      · show (runRegOps (rereg_file st handle f) rest).1.next_handle = _
        rw [h.2, hnext, regCount]

set_option maxHeartbeats 2000000 in
/-- C8: over any registry trace of a mount session, the allocated handles
are the consecutive integers from `MinimumFileHandler = 100`: strictly
increasing, all at least 100, pairwise distinct — never reused even after
unregistering; and the only context values the dispatcher ever writes are
0 (Cleanup, CloseFile) or the freshly allocated `next_handle`
(ZwCreateFile). -/
theorem handle_allocation_contract (ops : List RegOp) :
    (runRegOps initialFSState ops).2 = List.range' MinimumFileHandler (regCount ops) ∧
    List.Chain' (fun a b => a < b) (runRegOps initialFSState ops).2 ∧
    (∀ h ∈ (runRegOps initialFSState ops).2, MinimumFileHandler ≤ h) ∧
    ((runRegOps initialFSState ops).2).Nodup ∧
    (∀ (vfs : VFS) (st2 : FSState) (path : VPath) (da disp copts : Nat) (isDirIn : Bool),
      (ZwCreateFile vfs st2 path da disp copts isDirIn).contextWrite = none ∨
      (ZwCreateFile vfs st2 path da disp copts isDirIn).contextWrite =
        some st2.next_handle) ∧
    (∀ (st2 : FSState) (c : Nat),
      (CloseFile st2 c).contextWrite = none ∨ (CloseFile st2 c).contextWrite = some 0) ∧
    (∀ (vfs : VFS) (st2 : FSState) (p : VPath) (c : Nat) (isDir dC : Bool),
      (Cleanup vfs st2 p c isDir dC).contextWrite = none ∨
      (Cleanup vfs st2 p c isDir dC).contextWrite = some 0) := by
  have hspec := runRegOps_spec ops initialFSState
  have hrange : (runRegOps initialFSState ops).2 =
      List.range' MinimumFileHandler (regCount ops) := hspec.1
  refine ⟨hrange, ?_, ?_, ?_, ?_, ?_, ?_⟩
  · rw [hrange]
    exact List.Pairwise.chain' (List.pairwise_lt_range' MinimumFileHandler (regCount ops) 1
      (by omega))
  · intro h hm
    rw [hrange] at hm
    exact (List.mem_range'_1.mp hm).1
  · rw [hrange]
    exact List.nodup_range' ..
  · intro vfs st2 path da disp copts isDirIn
    unfold ZwCreateFile
    repeat' split
    all_goals simp [reg_file, apply_ite CreateOut.contextWrite]
    all_goals (repeat' split)
    all_goals (try simp [reg_file, apply_ite CreateOut.contextWrite])
    all_goals (cases isDirIn <;> simp_all)
  · intro st2 c
    unfold CloseFile
    repeat' split
    all_goals simp
  · intro vfs st2 p c isDir dC
    unfold Cleanup
    by_cases hp : p ∈ st2.pending_delete
    all_goals (repeat' split)
    all_goals simp_all [apply_ite CbOut.contextWrite]

/-- Witness for C8: the trace register/register/unregister 100/register
yields handles 100, 101, 102 — the freed handle 100 is not reused — and
the theorem's lower bound applies to the member 101. -/
theorem handle_allocation_contract_witness :
    (runRegOps initialFSState
        [.register ⟨[], 0, false, "r+b"⟩ ["a"], .register ⟨[], 0, false, "r+b"⟩ ["b"],
         .unregister 100, .register ⟨[], 0, false, "r+b"⟩ ["c"]]).2 = [100, 101, 102] ∧
    MinimumFileHandler ≤ 101 := by
  refine ⟨?_, ?_⟩
  · rw [(handle_allocation_contract
      [.register ⟨[], 0, false, "r+b"⟩ ["a"], .register ⟨[], 0, false, "r+b"⟩ ["b"],
       .unregister 100, .register ⟨[], 0, false, "r+b"⟩ ["c"]]).1]
    rfl
  · exact (handle_allocation_contract
      [.register ⟨[], 0, false, "r+b"⟩ ["a"], .register ⟨[], 0, false, "r+b"⟩ ["b"],
       .unregister 100, .register ⟨[], 0, false, "r+b"⟩ ["c"]]).2.2.1 101 (by decide)

/-! ### C9: PathMap pruning invariant -/

theorem childrenInv_clookup {V : Type} {name : String} :
    ∀ {cs : Children V} {c : Trie V},
      childrenInv cs = true → cs.clookup name = some c → subtreeInv c = true
  | .nil, c => by
    intro h hl
    simp [Children.clookup] at hl
  | .cons n t rest, c => by
    intro h hl
    rw [childrenInv, Bool.and_eq_true] at h
    rw [Children.clookup] at hl
    by_cases hn : n = name
    · rw [if_pos hn] at hl
      cases hl
      exact h.1
    · rw [if_neg hn] at hl
      exact childrenInv_clookup h.2 hl

theorem childrenInv_cerase {V : Type} (name : String) :
    ∀ {cs : Children V}, childrenInv cs = true → childrenInv (cs.cerase name) = true
  | .nil => by
    intro h
    exact h
  | .cons n t rest => by
    intro h
    rw [childrenInv, Bool.and_eq_true] at h
    rw [Children.cerase]
    by_cases hn : n = name
    · rw [if_pos hn]
      exact h.2
    · rw [if_neg hn, childrenInv, Bool.and_eq_true]
      exact ⟨h.1, childrenInv_cerase name h.2⟩

theorem childrenInv_cset {V : Type} (name : String) {c : Trie V} (hc : subtreeInv c = true) :
    ∀ {cs : Children V}, childrenInv cs = true → childrenInv (cs.cset name c) = true
  | .nil => by
    intro h
    rw [Children.cset, childrenInv, childrenInv, Bool.and_eq_true]
    exact ⟨hc, rfl⟩
  | .cons n t rest => by
    intro h
    rw [childrenInv, Bool.and_eq_true] at h
    rw [Children.cset]
    by_cases hn : n = name
    · rw [if_pos hn, childrenInv, Bool.and_eq_true]
      exact ⟨hc, h.2⟩
    · rw [if_neg hn, childrenInv, Bool.and_eq_true]
      exact ⟨h.1, childrenInv_cset name hc h.2⟩

theorem cset_isNil_false {V : Type} (name : String) (c : Trie V) :
    ∀ cs : Children V, (cs.cset name c).isNil = false
  | .nil => rfl
  | .cons n t rest => by
    rw [Children.cset]
    by_cases hn : n = name
    · rw [if_pos hn]
      rfl
    · rw [if_neg hn]
      rfl

/-- Pruning keeps the subtree invariant: whenever the shared
delete/pop traversal succeeds and leaves a subtree behind, that subtree's
dicts are all non-empty (assuming they were before). -/
theorem delPathAux_subtreeInv {V : Type} (path : List String) :
    ∀ (t : Trie V), subtreeInv t = true → ∀ (v : V) (t2 : Trie V),
      delPathAux t path = some (v, some t2) → subtreeInv t2 = true := by
  induction path with
  | nil =>
    intro t hinv v t2 hdel
    cases t with
    | node val cs =>
      cases val with
      | none => simp [delPathAux] at hdel
      | some v0 =>
        rw [delPathAux] at hdel
        by_cases hnil : cs.isNil
        · simp [hnil] at hdel
        · simp only [hnil, Bool.false_eq_true, if_false, Option.some.injEq,
            Prod.mk.injEq] at hdel
          obtain ⟨-, h2⟩ := hdel
          cases h2
          rw [subtreeInv, Bool.and_eq_true] at hinv ⊢
          refine ⟨?_, hinv.2⟩
          simp [Bool.not_eq_true] at hnil ⊢
          exact hnil
  | cons name rest ih =>
    intro t hinv v t2 hdel
    cases t with
    | node val cs =>
      rw [subtreeInv, Bool.and_eq_true] at hinv
      rw [delPathAux] at hdel
      cases hlk : cs.clookup name with
      | none =>
        rw [hlk] at hdel
        try dsimp only at hdel
        cases hdel
      | some child =>
        rw [hlk] at hdel
        try dsimp only at hdel
        have hchild := childrenInv_clookup hinv.2 hlk
        cases hrec : delPathAux child rest with
        | none =>
          rw [hrec] at hdel
          try dsimp only at hdel
          cases hdel
        | some pr =>
          obtain ⟨val2, r⟩ := pr
          rw [hrec] at hdel
          try dsimp only at hdel
          cases r with
          | none =>
            by_cases hguard : val.isNone && (cs.cerase name).isNil
            · rw [if_pos hguard] at hdel
              simp at hdel
            · rw [if_neg hguard] at hdel
              simp only [Option.some.injEq, Prod.mk.injEq] at hdel
              obtain ⟨-, h2⟩ := hdel
              cases h2
              rw [subtreeInv, Bool.and_eq_true]
              refine ⟨?_, childrenInv_cerase name hinv.2⟩
              cases hval : val with
              | none =>
                rw [hval] at hguard
                simp at hguard
                simp [hguard]
              | some v0 => simp
          | some c2 =>
            simp only [Option.some.injEq, Prod.mk.injEq] at hdel
            obtain ⟨-, h2⟩ := hdel
            cases h2
            rw [subtreeInv, Bool.and_eq_true]
            refine ⟨?_, childrenInv_cset name (ih child hchild val2 c2 hrec) hinv.2⟩
            rw [cset_isNil_false]
            simp

/-- Root-level pruning: whatever the shared traversal leaves at the root
(the pruned-away root is replaced by the surviving empty root dict), every
dict below the root is non-empty. -/
theorem delPathAux_rootInv {V : Type} (path : List String) (t : Trie V)
    (hinv : rootInv t = true) {v : V} {r : Option (Trie V)}
    (hdel : delPathAux t path = some (v, r)) :
    rootInv (r.getD (.node none .nil)) = true := by
  cases path with
  | nil =>
    cases t with
    | node val cs =>
      cases val with
      | none => simp [delPathAux] at hdel
      | some v0 =>
        rw [delPathAux] at hdel
        by_cases hnil : cs.isNil
        · simp only [hnil, if_true, Option.some.injEq, Prod.mk.injEq] at hdel
          obtain ⟨-, h2⟩ := hdel
          cases h2
          rfl
        · simp only [hnil, Bool.false_eq_true, if_false, Option.some.injEq,
            Prod.mk.injEq] at hdel
          obtain ⟨-, h2⟩ := hdel
          cases h2
          exact hinv
  | cons name rest =>
    cases t with
    | node val cs =>
      rw [delPathAux] at hdel
      cases hlk : cs.clookup name with
      | none =>
        rw [hlk] at hdel
        try dsimp only at hdel
        cases hdel
      | some child =>
        rw [hlk] at hdel
        try dsimp only at hdel
        have hchild := childrenInv_clookup hinv hlk
        cases hrec : delPathAux child rest with
        | none =>
          rw [hrec] at hdel
          try dsimp only at hdel
          cases hdel
        | some pr =>
          obtain ⟨val2, r2⟩ := pr
          rw [hrec] at hdel
          try dsimp only at hdel
          cases r2 with
          | none =>
            by_cases hguard : val.isNone && (cs.cerase name).isNil
            · rw [if_pos hguard] at hdel
              simp only [Option.some.injEq, Prod.mk.injEq] at hdel
              obtain ⟨-, h2⟩ := hdel
              cases h2
              rfl
            · rw [if_neg hguard] at hdel
              simp only [Option.some.injEq, Prod.mk.injEq] at hdel
              obtain ⟨-, h2⟩ := hdel
              cases h2
              exact childrenInv_cerase name hinv
          | some c2 =>
            simp only [Option.some.injEq, Prod.mk.injEq] at hdel
            obtain ⟨-, h2⟩ := hdel
            cases h2
            exact childrenInv_cset name
              (delPathAux_subtreeInv rest child hchild val2 c2 hrec) hinv

/-- C9: starting from a map whose reachable dicts are all non-empty,
`PathMap.__delitem__` (when it succeeds) and `PathMap.pop` prune every
intermediate dict they empty: the resulting map again has no empty dict
reachable below its root. -/
theorem pathmap_prune_keeps_nonempty {V : Type} (t : Trie V) (path : List String)
    (hinv : rootInv t = true) :
    (∀ t2 : Trie V, PathMap.delitem t path = some t2 → rootInv t2 = true) ∧
    rootInv (PathMap.pop t path).2 = true := by
  constructor
  · intro t2 h2
    unfold PathMap.delitem at h2
    cases hdel : delPathAux t path with
    | none =>
      rw [hdel] at h2
      cases h2
    | some pr =>
      obtain ⟨v, r⟩ := pr
      rw [hdel] at h2
      simp only [Option.map_some'] at h2
      cases h2
      exact delPathAux_rootInv path t hinv hdel
  · unfold PathMap.pop
    cases hdel : delPathAux t path with
    | none =>
      exact hinv
    | some pr =>
      obtain ⟨v, r⟩ := pr
      exact delPathAux_rootInv path t hinv hdel

/-- Witness for C9: deleting the only value `/a/b ↦ 1` prunes the chain of
dicts down to the empty root. -/
theorem pathmap_prune_keeps_nonempty_witness :
    PathMap.delitem
        (Trie.node (V := Nat) none
          (.cons "a" (.node none (.cons "b" (.node (some 1) .nil) .nil)) .nil))
        ["a", "b"] = some (.node none .nil) ∧
    rootInv (Trie.node (V := Nat) none .nil) = true := by
  refine ⟨rfl, ?_⟩
  exact (pathmap_prune_keeps_nonempty
      (Trie.node (V := Nat) none
        (.cons "a" (.node none (.cons "b" (.node (some 1) .nil) .nil)) .nil))
      ["a", "b"] (by rfl)).1 (.node none .nil) (by rfl)

/-! ### C10: WriteFile byte count and size tracking -/

theorem rereg_file_files_size_written (st : FSState) (handle : Nat) (f : Stream) :
    (rereg_file st handle f).files_size_written = st.files_size_written := by
  unfold rereg_file
  split <;> rfl

/-- C10: whenever `WriteFile` returns `STATUS_SUCCESS` it reports
`NumberOfBytesWritten = NumberOfBytesToWrite` (the length of the copied
buffer) no matter what the backend stream's `write` did, and it raises the
post-close size entry for (path, handle) to
`max(previous, Offset + NumberOfBytesToWrite)` — using `Offset` even when
`WriteToEndOfFile` directed the data to end-of-file; replacing the backend
write by any other function changes neither the status, the reported
count, nor the recorded size. -/
theorem writefile_reports_full_count (vfs : VFS) (bw : Stream → List Nat → Stream)
    (st : FSState) (path : VPath) (context : Nat) (buf : List Nat) (offset : Nat)
    (wte : Bool)
    (hsucc : (WriteFile vfs bw st path context buf offset wte).result =
      .ok (some STATUS_SUCCESS)) :
    (WriteFile vfs bw st path context buf offset wte).bytesWritten = some buf.length ∧
    getSizeWritten (WriteFile vfs bw st path context buf offset wte).st path context =
      (getSizeWritten st path context).map (fun sw => max sw (offset + buf.length)) ∧
    (∀ bw2 : Stream → List Nat → Stream,
      (WriteFile vfs bw2 st path context buf offset wte).result = .ok (some STATUS_SUCCESS) ∧
      (WriteFile vfs bw2 st path context buf offset wte).bytesWritten = some buf.length ∧
      getSizeWritten (WriteFile vfs bw2 st path context buf offset wte).st path context =
        getSizeWritten (WriteFile vfs bw st path context buf offset wte).st path context) := by
  have main : ∀ bw0 : Stream → List Nat → Stream,
      (WriteFile vfs bw0 st path context buf offset wte).result = .ok (some STATUS_SUCCESS) ∧
      (WriteFile vfs bw0 st path context buf offset wte).bytesWritten = some buf.length ∧
      getSizeWritten (WriteFile vfs bw0 st path context buf offset wte).st path context =
        (getSizeWritten st path context).map (fun sw => max sw (offset + buf.length)) := by
    unfold WriteFile at hsucc
    cases hg : get_file st context with
    | error e =>
      rw [hg] at hsucc
      cases hsucc
    | ok of =>
      rw [hg] at hsucc
      try dsimp only at hsucc
      by_cases hl : check_lock st path (some context) offset buf.length ≠ 0
      · rw [if_pos hl] at hsucc
        simp only [Except.ok.injEq, Option.some.injEq] at hsucc
        exact absurd (by simpa [STATUS_SUCCESS] using hsucc) hl
      · intro bw0
        unfold WriteFile
        rw [hg]
        dsimp only
        rw [if_neg hl]
        cases hcl : of.file.closed with
        | true =>
          try dsimp only
          rw [if_neg hl, hcl] at hsucc
          try dsimp only at hsucc
          cases hop : vfs.openResult path of.file.mode with
          | error e =>
            rw [hop] at hsucc
            try dsimp only at hsucc
            cases hsucc
          | ok f =>
            try dsimp only
            refine ⟨rfl, rfl, ?_⟩
            have hface : (rereg_file st context f).files_size_written =
                st.files_size_written := rereg_file_files_size_written st context f
            unfold getSizeWritten
            cases hsw : alookup path st.files_size_written with
            | none => simp [hface, hsw]
            | some sizes0 =>
              cases hswc : alookup context sizes0 with
              | none => simp [hface, hsw, hswc]
              | some sw =>
                by_cases hgt : offset + buf.length > sw
                · simp [hface, hsw, hswc, hgt, alookup_aset_self]
                  try omega
                · simp [hface, hsw, hswc, hgt]
                  try omega
        | false =>
          try dsimp only
          refine ⟨rfl, rfl, ?_⟩
          unfold getSizeWritten
          cases hsw : alookup path st.files_size_written with
          | none => simp [hsw]
          | some sizes0 =>
            cases hswc : alookup context sizes0 with
            | none => simp [hsw, hswc]
            | some sw =>
              by_cases hgt : offset + buf.length > sw
              · simp [hsw, hswc, hgt, alookup_aset_self]
                try omega
              · simp [hsw, hswc, hgt]
                try omega
  refine ⟨(main bw).2.1, (main bw).2.2, fun bw2 => ⟨(main bw2).1, (main bw2).2.1, ?_⟩⟩
  rw [(main bw2).2.2, (main bw).2.2]

/-- Witness for C10: writing 3 bytes at offset 0 with `WriteToEndOfFile`
set, on a registered handle whose recorded size is 0, reports 3 bytes
written and records size 3. -/
theorem writefile_reports_full_count_witness :
    (WriteFile trivialVFS (fun s b => { s with data := s.data ++ b })
        { initialFSState with
          files_by_handle := [(100, ⟨⟨[], 0, false, "r+b"⟩, ["t.txt"]⟩)]
          files_size_written := [(["t.txt"], [(100, 0)])] }
        ["t.txt"] 100 [1, 2, 3] 0 true).bytesWritten = some 3 ∧
    getSizeWritten
      (WriteFile trivialVFS (fun s b => { s with data := s.data ++ b })
        { initialFSState with
          files_by_handle := [(100, ⟨⟨[], 0, false, "r+b"⟩, ["t.txt"]⟩)]
          files_size_written := [(["t.txt"], [(100, 0)])] }
        ["t.txt"] 100 [1, 2, 3] 0 true).st ["t.txt"] 100 = some 3 := by
  have h := writefile_reports_full_count trivialVFS
    (fun s b => { s with data := s.data ++ b })
    { initialFSState with
      files_by_handle := [(100, ⟨⟨[], 0, false, "r+b"⟩, ["t.txt"]⟩)]
      files_size_written := [(["t.txt"], [(100, 0)])] }
    ["t.txt"] 100 [1, 2, 3] 0 true (by rfl)
  exact ⟨h.1, by rw [h.2.1]; rfl⟩

end PyfsDokan
